import Mathlib

/-!
Shallow embedding of `healthkit_dashboard.py`: the HealthKit metric catalog
`HEALTHKIT_METRICS`, the export extractor `parse_healthkit_export`, the daily
aggregator `create_visualization`, and the summary-statistics block of `main`,
together with proofs of the specified properties of the pipeline.
-/

/-- Model of a Python `float` value as produced by `float(str)`: an exact
rational for finite values, plus the non-finite values `nan`, `inf` and
`-inf`, which Python's `float` accepts from the literals `"nan"`,
`"inf"`/`"infinity"` (optionally signed, case-insensitive). -/
inductive PyFloat where
  | finite : ℚ → PyFloat
  | nan : PyFloat
  | inf : PyFloat
  | ninf : PyFloat
deriving DecidableEq

/-- `true` exactly on finite values (as Python's `math.isfinite`). -/
def PyFloat.isFinite : PyFloat → Bool
  | .finite _ => true
  | _ => false

/-- Whitespace characters stripped by Python's `float(str)`. -/
def isSpaceChar (c : Char) : Bool :=
  c = ' ' || c = '\t' || c = '\n' || c = '\r' || c = '\x0b' || c = '\x0c'

/-- Strip leading and trailing whitespace. -/
def trimSpaces (l : List Char) : List Char :=
  ((l.dropWhile isSpaceChar).reverse.dropWhile isSpaceChar).reverse

/-- Numeric value of a decimal digit character. -/
def digitVal (c : Char) : ℕ := c.toNat - '0'.toNat

/-- Natural number denoted by a list of decimal digit characters. -/
def natOfDigits (l : List Char) : ℕ := l.foldl (fun a c => a * 10 + digitVal c) 0

/-- Multiplier contributed by the digits of a float exponent. -/
def expMul (l : List Char) (neg : Bool) : Option ℚ :=
  if l ≠ [] ∧ l.all Char.isDigit then
    some (if neg then ((10 : ℚ) ^ natOfDigits l)⁻¹ else (10 : ℚ) ^ natOfDigits l)
  else none

/-- Parse the optional exponent part of a float literal (input already
lower-cased); returns the multiplier it denotes. -/
def parseExpPart : List Char → Option ℚ
  | [] => some 1
  | 'e' :: r =>
    match r with
    | '+' :: r2 => expMul r2 false
    | '-' :: r2 => expMul r2 true
    | r2 => expMul r2 false
  | _ => none

/-- Parse the mantissa of a float literal: digits with an optional decimal
point, at least one digit in total; returns its value and the rest. -/
def parseMantissa (l : List Char) : Option (ℚ × List Char) :=
  match l.span Char.isDigit with
  | (ds, rest) =>
    match rest with
    | '.' :: r2 =>
      (match r2.span Char.isDigit with
       | (fs, r3) =>
         if ds = [] ∧ fs = [] then none
         else some ((natOfDigits ds : ℚ) + (natOfDigits fs : ℚ) / (10 : ℚ) ^ fs.length, r3))
    | _ => if ds = [] then none else some ((natOfDigits ds : ℚ), rest)

/-- Parse the body of a float literal after sign removal and lower-casing. -/
def parseFloatBody (l : List Char) (neg : Bool) : Option PyFloat :=
  if l = "inf".data ∨ l = "infinity".data then some (if neg then .ninf else .inf)
  else if l = "nan".data then some .nan
  else
    match parseMantissa l with
    | none => none
    | some (q, rest) =>
      match parseExpPart rest with
      | none => none
      | some m => some (.finite (if neg then -(q * m) else q * m))

/-- Model of Python's `float(s)` on a string argument: `none` when the call
raises `ValueError` (non-numeric text), otherwise the parsed value — note
that `"nan"`, `"inf"` and `"infinity"` (any casing, optional sign) parse
successfully to non-finite values. -/
def pyFloatParse (s : String) : Option PyFloat :=
  match (trimSpaces s.data).map Char.toLower with
  | '+' :: r => parseFloatBody r false
  | '-' :: r => parseFloatBody r true
  | l => parseFloatBody l false

/-- Timezone-aware timestamp as produced by
`datetime.strptime(s, '%Y-%m-%d %H:%M:%S %z')`. -/
structure PyDateTime where
  year : ℕ
  month : ℕ
  day : ℕ
  hour : ℕ
  minute : ℕ
  second : ℕ
  tzMin : ℤ
deriving DecidableEq

/-- Gregorian leap-year test. -/
def isLeapYear (y : ℕ) : Bool := (y % 4 == 0 && y % 100 != 0) || y % 400 == 0

/-- Number of days in a month. -/
def daysInMonth (y m : ℕ) : ℕ :=
  if m = 2 then (if isLeapYear y then 29 else 28)
  else if m = 4 ∨ m = 6 ∨ m = 9 ∨ m = 11 then 30
  else 31

/-- Consume exactly two decimal digits. -/
def twoDigits : List Char → Option (ℕ × List Char)
  | a :: b :: r =>
    if a.isDigit && b.isDigit then some (digitVal a * 10 + digitVal b, r) else none
  | _ => none

/-- Consume exactly four decimal digits. -/
def fourDigits : List Char → Option (ℕ × List Char)
  | a :: b :: c :: d :: r =>
    if a.isDigit && b.isDigit && c.isDigit && d.isDigit then
      some (((digitVal a * 10 + digitVal b) * 10 + digitVal c) * 10 + digitVal d, r)
    else none
  | _ => none

/-- Consume one expected literal character. -/
def expectChar (c : Char) : List Char → Option (List Char)
  | x :: r => if x = c then some r else none
  | [] => none

/-- Model of `datetime.strptime(s, '%Y-%m-%d %H:%M:%S %z')`: `none` when the
call raises `ValueError` (format mismatch or out-of-range field), otherwise
the parsed timezone-aware timestamp. -/
def strptimeFixed (s : String) : Option PyDateTime :=
  match fourDigits s.data with
  | none => none
  | some (y, l1) =>
  match expectChar '-' l1 with
  | none => none
  | some l2 =>
  match twoDigits l2 with
  | none => none
  | some (mo, l3) =>
  match expectChar '-' l3 with
  | none => none
  | some l4 =>
  match twoDigits l4 with
  | none => none
  | some (d, l5) =>
  match expectChar ' ' l5 with
  | none => none
  | some l6 =>
  match twoDigits l6 with
  | none => none
  | some (h, l7) =>
  match expectChar ':' l7 with
  | none => none
  | some l8 =>
  match twoDigits l8 with
  | none => none
  | some (mi, l9) =>
  match expectChar ':' l9 with
  | none => none
  | some l10 =>
  match twoDigits l10 with
  | none => none
  | some (sec, l11) =>
  match expectChar ' ' l11 with
  | none => none
  | some l12 =>
  match (match l12 with
         | '+' :: r => some ((1 : ℤ), r)
         | '-' :: r => some ((-1 : ℤ), r)
         | _ => none) with
  | none => none
  | some (sg, l13) =>
  match twoDigits l13 with
  | none => none
  | some (zh, l14) =>
  match twoDigits l14 with
  | none => none
  | some (zm, l15) =>
  if l15 = [] ∧ 1 ≤ y ∧ 1 ≤ mo ∧ mo ≤ 12 ∧ 1 ≤ d ∧ d ≤ daysInMonth y mo ∧
     h ≤ 23 ∧ mi ≤ 59 ∧ sec ≤ 59 ∧ zh ≤ 23 ∧ zm ≤ 59 then
    some ⟨y, mo, d, h, mi, sec, sg * (zh * 60 + zm)⟩
  else none

/-- The `HEALTHKIT_METRICS` dict of the source, in literal order: category
name paired with its list of recognized metric identifiers. -/
def HEALTHKIT_METRICS : List (String × List String) := [
  ("Activity", [
    "HKQuantityTypeIdentifierStepCount",
    "HKQuantityTypeIdentifierDistanceWalkingRunning",
    "HKQuantityTypeIdentifierFlightsClimbed",
    "HKQuantityTypeIdentifierActiveEnergyBurned",
    "HKQuantityTypeIdentifierBasalEnergyBurned"]),
  ("Vital Signs", [
    "HKQuantityTypeIdentifierHeartRate",
    "HKQuantityTypeIdentifierRestingHeartRate",
    "HKQuantityTypeIdentifierHeartRateVariabilitySDNN",
    "HKQuantityTypeIdentifierOxygenSaturation",
    "HKQuantityTypeIdentifierRespiratoryRate",
    "HKQuantityTypeIdentifierBodyTemperature",
    "HKQuantityTypeIdentifierBloodPressureSystolic",
    "HKQuantityTypeIdentifierBloodPressureDiastolic"]),
  ("Body Measurements", [
    "HKQuantityTypeIdentifierHeight",
    "HKQuantityTypeIdentifierBodyMass",
    "HKQuantityTypeIdentifierBodyFatPercentage",
    "HKQuantityTypeIdentifierLeanBodyMass",
    "HKQuantityTypeIdentifierBodyMassIndex"]),
  ("Sleep", [
    "HKCategoryTypeIdentifierSleepAnalysis"]),
  ("Nutrition", [
    "HKQuantityTypeIdentifierDietaryWater",
    "HKQuantityTypeIdentifierDietaryEnergyConsumed",
    "HKQuantityTypeIdentifierDietaryProtein",
    "HKQuantityTypeIdentifierDietaryFatTotal",
    "HKQuantityTypeIdentifierDietaryCarbohydrates"]),
  ("Mindfulness", [
    "HKCategoryTypeIdentifierMindfulSession"])]

/-- The flattened metric list of the source:
`[metric for category in HEALTHKIT_METRICS.values() for metric in category]`. -/
def all_metrics : List String := (HEALTHKIT_METRICS.map Prod.snd).flatten

/-- One `Record` element of the export tree; each attribute read with
`record.get(...)` yields `none` when the attribute is absent. -/
structure Element where
  type : Option String
  value : Option String
  unit : Option String
  startDate : Option String
deriving DecidableEq

/-- The Python exception kinds relevant to the extractor's record loop. -/
inductive PyErr where
  | valueError : PyErr
  | typeError : PyErr
  | stopIteration : PyErr
deriving DecidableEq

/-- One decoded record dict appended to `records` by the extractor. -/
structure RawObs where
  mtype : String
  value : PyFloat
  unit : Option String
  date : PyDateTime
  category : String
deriving DecidableEq

deriving instance DecidableEq for Except

/-- Model of `float(record.get('value'))`: `TypeError` when the attribute is
absent (`float(None)`), `ValueError` when the text does not parse. -/
def floatAttr : Option String → Except PyErr PyFloat
  | none => .error .typeError
  | some s =>
    match pyFloatParse s with
    | some v => .ok v
    | none => .error .valueError

/-- Model of `datetime.strptime(record.get('startDate'), ...)`: `TypeError`
when the attribute is absent, `ValueError` when it does not parse. -/
def strptimeAttr : Option String → Except PyErr PyDateTime
  | none => .error .typeError
  | some s =>
    match strptimeFixed s with
    | some d => .ok d
    | none => .error .valueError

/-- Model of `next(cat for cat, metrics in HEALTHKIT_METRICS.items() if
record_type in metrics)`: the first category whose list contains the
identifier, `StopIteration` when none does. -/
def categoryAttr (t : String) : Except PyErr String :=
  match HEALTHKIT_METRICS.find? (fun p => decide (t ∈ p.2)) with
  | some p => .ok p.1
  | none => .error .stopIteration

/-- Body of the `try` block of the record loop, for a recognized type `t`:
the record dict literal evaluates `float(...)`, then `strptime(...)`, then
the category generator, raising at the first failure. -/
def tryRecord (t : String) (e : Element) : Except PyErr RawObs := do
  let v ← floatAttr e.value
  let d ← strptimeAttr e.startDate
  let c ← categoryAttr t
  pure ⟨t, v, e.unit, d, c⟩

/-- One iteration of the record loop: skip elements whose type attribute is
absent or unrecognized; otherwise run the `try` body, where
`except (ValueError, TypeError)` turns those two failures into a silent
skip and any other exception propagates. -/
def processElement (e : Element) : Except PyErr (Option RawObs) :=
  match e.type with
  | none => .ok none
  | some t =>
    if t ∈ all_metrics then
      match tryRecord t e with
      | .ok o => .ok (some o)
      | .error .valueError => .ok none
      | .error .typeError => .ok none
      | .error err => .error err
    else .ok none

/-- The whole record loop: accumulate the decoded records in source order,
propagating any uncaught exception. -/
def extractRecords : List Element → Except PyErr (List RawObs)
  | [] => .ok []
  | e :: es => do
    let h ← processElement e
    let rest ← extractRecords es
    match h with
    | some o => pure (o :: rest)
    | none => pure rest

/-- Model of `parse_healthkit_export`: the argument models the outcome of
reading and tree-parsing the uploaded document (`ET.parse`), with `.error`
standing for an unreadable or ill-formed document. The outer
`except Exception` turns any failure into `st.error(...)` plus
`return None`, modelled as `none`; otherwise the full record collection is
returned. -/
def parse_healthkit_export (doc : Except String (List Element)) : Option (List RawObs) :=
  match doc with
  | .error _ => none
  | .ok es =>
    match extractRecords es with
    | .ok l => some l
    | .error _ => none

/-- The catalog category holding a metric identifier: first (and, by
`catalog_categories_disjoint`, only) category whose list contains it. -/
def catalogCategoryOf (t : String) : Option String :=
  (HEALTHKIT_METRICS.find? (fun p => decide (t ∈ p.2))).map Prod.fst

/-- `charsStartWith n h` is `true` when `n` is an initial segment of `h`. -/
def charsStartWith : List Char → List Char → Bool
  | [], _ => true
  | _ :: _, [] => false
  | a :: as, b :: bs => a == b && charsStartWith as bs

/-- `charsHave n h` is `true` when `n` occurs contiguously inside `h`. -/
def charsHave (needle : List Char) : List Char → Bool
  | [] => needle.isEmpty
  | c :: rest => charsStartWith needle (c :: rest) || charsHave needle rest

/-- Model of Python's substring test `needle in hay` on strings. -/
def strHas (hay needle : String) : Bool := charsHave needle.data hay.data

/-- Arithmetic mean of a list of values (pandas `mean` over the group). -/
def listMean (l : List ℚ) : ℚ := l.sum / (l.length : ℚ)

/-- Minimum of a list of values (pandas `min` over the group). -/
def listMinimum (l : List ℚ) : ℚ :=
  match l with
  | [] => 0
  | x :: xs => xs.foldl min x

/-- Maximum of a list of values (pandas `max` over the group). -/
def listMaximum (l : List ℚ) : ℚ :=
  match l with
  | [] => 0
  | x :: xs => xs.foldl max x

/-- One row of the extracted DataFrame as the aggregator consumes it: the
metric identifier (`type` column), the numeric value, and the timestamp
reduced to the pair (calendar-date rank, seconds within the day) — the
aggregator only ever consults the calendar date via `.dt.date`, and a
calendar date `y-m-d` is encoded injectively and order-preservingly as the
rank `(y * 100 + m) * 100 + d`. Values are taken finite here, per the data
model of the Observation collection. -/
structure Obs where
  mtype : String
  value : ℚ
  dt : ℕ × ℕ
deriving DecidableEq

/-- The `.dt.date` projection of an observation's timestamp. -/
def calDate (o : Obs) : ℕ := o.dt.1

/-- The boolean-mask filter of `create_visualization`:
`df[(df['type'] == metric_type) & (date >= start) & (date <= end)]`. -/
def filterObs (df : List Obs) (m : String) (d1 d2 : ℕ) : List Obs :=
  df.filter (fun o => decide (o.mtype = m ∧ d1 ≤ calDate o ∧ calDate o ≤ d2))

/-- Insert a date into a sorted duplicate-free date list, keeping it so. -/
def insertDate (d : ℕ) : List ℕ → List ℕ
  | [] => [d]
  | x :: xs => if d < x then d :: x :: xs else if d = x then x :: xs else x :: insertDate d xs

/-- The distinct dates of a column, sorted ascending — the group keys that
pandas `groupby` produces (`sort=True`, one group per distinct key). -/
def sortedDates (l : List ℕ) : List ℕ := l.foldr insertDate []

/-- `groupby(filtered_df['date'].dt.date)` over the value column: one pair
per distinct date, ascending, carrying that date's values in row order. -/
def groupRows (l : List Obs) : List (ℕ × List ℚ) :=
  (sortedDates (l.map calDate)).map
    (fun d => (d, (l.filter (fun o => decide (calDate o = d))).map Obs.value))

/-- The aggregated fields of one daily row, per aggregation policy. -/
inductive RowStats where
  | hr : ℚ → ℚ → ℚ → RowStats
  | total : ℚ → RowStats
  | avg : ℚ → RowStats
deriving DecidableEq

/-- One row of `daily_data`: its calendar date and aggregated fields. -/
structure DailyRow where
  date : ℕ
  stats : RowStats
deriving DecidableEq

/-- The aggregation-policy dispatch of `create_visualization`: metrics whose
identifier contains `"HeartRate"` get mean/min/max; otherwise identifiers
containing `"StepCount"`, `"Distance"` or `"Energy"` get a sum; every other
metric gets a mean. Policy `hr` carries mean, min, max in that order. -/
def aggStats (m : String) (vals : List ℚ) : RowStats :=
  if strHas m "HeartRate" then .hr (listMean vals) (listMinimum vals) (listMaximum vals)
  else if strHas m "StepCount" || strHas m "Distance" || strHas m "Energy" then
    .total vals.sum
  else .avg (listMean vals)

/-- Model of `create_visualization(df, metric_type, date_range)` restricted
to its data product `daily_data` (the figure is presentation): filter by
metric and inclusive date range, group by calendar date, aggregate each
group by the policy dispatch. -/
def create_visualization (df : List Obs) (m : String) (d1 d2 : ℕ) : List DailyRow :=
  (groupRows (filterObs df m d1 d2)).map (fun p => ⟨p.1, aggStats m p.2⟩)

/-- The call `fig, daily_data = create_visualization(df, ...)` as the caller
sees it: the returned rows together with the caller's observation frame
after the call. The body applies only non-mutating frame operations
(boolean-mask selection, `groupby`, `agg`, `reset_index`), each returning a
new frame, and never rebinds or mutates `df` in place, so the frame after
the call is the frame passed in. -/
def create_visualization_run (df : List Obs) (m : String) (d1 d2 : ℕ) :
    List DailyRow × List Obs :=
  (create_visualization df m d1 d2, df)

/-- The four scalars of main's Summary Statistics block. -/
structure Summary where
  mean : PyFloat
  max : PyFloat
  min : PyFloat
  totalDays : ℕ
deriving DecidableEq

/-- pandas `Series.mean()`: `NaN` on an empty series. -/
def seriesMean (l : List ℚ) : PyFloat :=
  if l.isEmpty then .nan else .finite (listMean l)

/-- pandas `Series.max()`: `NaN` on an empty series. -/
def seriesMax (l : List ℚ) : PyFloat :=
  if l.isEmpty then .nan else .finite (listMaximum l)

/-- pandas `Series.min()`: `NaN` on an empty series. -/
def seriesMin (l : List ℚ) : PyFloat :=
  if l.isEmpty then .nan else .finite (listMinimum l)

/-- The Summary Statistics block of `main` over the primary value column of
`daily_data`: `daily_data['value'].mean()`, `.max()`, `.min()` and
`len(daily_data)`, computed unconditionally — there is no emptiness check
before them. -/
def summaryStats (vals : List ℚ) : Summary :=
  ⟨seriesMean vals, seriesMax vals, seriesMin vals, vals.length⟩

/-! ### Order and membership facts about the grouping keys -/

lemma mem_insertDate (x d : ℕ) (l : List ℕ) : x ∈ insertDate d l ↔ x = d ∨ x ∈ l := by
  induction l with
  | nil => simp [insertDate]
  | cons a as ih =>
    simp only [insertDate]
    by_cases h1 : d < a
    · rw [if_pos h1]
      simp only [List.mem_cons]
    · rw [if_neg h1]
      by_cases h2 : d = a
      · rw [if_pos h2]
        subst h2
        simp only [List.mem_cons]
        tauto
      · rw [if_neg h2]
        simp only [List.mem_cons, ih]
        tauto

lemma pairwise_insertDate (d : ℕ) (l : List ℕ) (h : l.Pairwise (· < ·)) :
    (insertDate d l).Pairwise (· < ·) := by
  induction l with
  | nil => simp [insertDate]
  | cons a as ih =>
    rcases List.pairwise_cons.mp h with ⟨ha, has⟩
    by_cases h1 : d < a
    · simp only [insertDate, if_pos h1]
      refine List.pairwise_cons.mpr ⟨?_, h⟩
      intro y hy
      rcases List.mem_cons.mp hy with rfl | hy
      · exact h1
      · exact h1.trans (ha y hy)
    · by_cases h2 : d = a
      · simp only [insertDate, if_neg h1, if_pos h2]
        exact h
      · simp only [insertDate, if_neg h1, if_neg h2]
        refine List.pairwise_cons.mpr ⟨?_, ih has⟩
        intro y hy
        rcases (mem_insertDate y d as).mp hy with rfl | hy
        · omega
        · exact ha y hy

lemma sortedDates_pairwise (l : List ℕ) : (sortedDates l).Pairwise (· < ·) := by
  induction l with
  | nil => exact List.Pairwise.nil
  | cons a as ih => exact pairwise_insertDate a (sortedDates as) ih

lemma mem_sortedDates (x : ℕ) (l : List ℕ) : x ∈ sortedDates l ↔ x ∈ l := by
  induction l with
  | nil => simp [sortedDates]
  | cons a as ih =>
    show x ∈ insertDate a (sortedDates as) ↔ _
    rw [mem_insertDate, ih, List.mem_cons]

lemma cv_dates (df : List Obs) (m : String) (d1 d2 : ℕ) :
    (create_visualization df m d1 d2).map DailyRow.date
      = sortedDates ((filterObs df m d1 d2).map calDate) := by
  simp [create_visualization, groupRows, List.map_map, Function.comp_def]

/-! ### Properties of the Daily Aggregator -/

/-- C1 (amended): when `start_date > end_date` the aggregator does not fail —
`create_visualization` has no range check at all; the boolean-mask filter is
unsatisfiable, so the call completes normally and returns an empty daily
sequence. -/
theorem aggregator_inverted_range_returns_empty (df : List Obs) (m : String)
    (d1 d2 : ℕ) (h : d2 < d1) : create_visualization df m d1 d2 = [] := by
  have hf : filterObs df m d1 d2 = [] := by
    rw [filterObs, List.filter_eq_nil_iff]
    intro o ho
    simp only [decide_eq_true_eq, not_and, not_le]
    intro _ h1
    omega
  simp [create_visualization, groupRows, hf, sortedDates]

/-- C1 (witness): the amended theorem applied at a concrete inverted range. -/
theorem aggregator_inverted_range_returns_empty_witness :
    20240201 < 20240210 ∧
    create_visualization [] "HKQuantityTypeIdentifierHeartRate" 20240210 20240201 = [] :=
  ⟨by decide,
   aggregator_inverted_range_returns_empty [] "HKQuantityTypeIdentifierHeartRate"
     20240210 20240201 (by decide)⟩

/-- C1 (counterexample): with `start_date = 2024-02-10 > end_date = 2024-02-01`
and an observation lying between the two supplied dates, the aggregator
neither raises an `InvalidRange` error nor silently swaps the bounds (a
corrected range would emit the 2024-02-05 row): it simply completes and
returns the empty aggregation, so no failure occurs before aggregation. -/
theorem aggregator_inverted_range_counterexample :
    create_visualization [⟨"HKQuantityTypeIdentifierStepCount", 5, (20240205, 0)⟩]
      "HKQuantityTypeIdentifierStepCount" 20240210 20240201 = [] := by
  decide

lemma mem_filterObs {df : List Obs} {m : String} {d1 d2 : ℕ} {o : Obs} :
    o ∈ filterObs df m d1 d2 ↔
      o ∈ df ∧ o.mtype = m ∧ d1 ≤ calDate o ∧ calDate o ≤ d2 := by
  simp [filterObs, List.mem_filter]

/-- C4: for every date range with `start_date ≤ end_date`, the emitted daily
rows have strictly increasing dates, every emitted date lies within the
inclusive range, and every emitted date has at least one matching filtered
observation (a date with none produces no row). -/
theorem aggregator_dates_strictly_increasing (df : List Obs) (m : String)
    (d1 d2 : ℕ) (row : DailyRow) (hrange : d1 ≤ d2)
    (hrow : row ∈ create_visualization df m d1 d2) :
    ((create_visualization df m d1 d2).map DailyRow.date).Pairwise (· < ·) ∧
      d1 ≤ row.date ∧ row.date ≤ d2 ∧
      (filterObs df m d1 d2).filter (fun o => decide (calDate o = row.date)) ≠ [] := by
  have hdate : row.date ∈ sortedDates ((filterObs df m d1 d2).map calDate) := by
    rw [← cv_dates]
    exact List.mem_map_of_mem DailyRow.date hrow
  obtain ⟨o, ho, hcal⟩ := List.mem_map.mp ((mem_sortedDates _ _).mp hdate)
  obtain ⟨hodf, hom, ho1, ho2⟩ := mem_filterObs.mp ho
  refine ⟨?_, ?_, ?_, ?_⟩
  · rw [cv_dates]
    exact sortedDates_pairwise _
  · rw [← hcal]
    exact ho1
  · rw [← hcal]
    exact ho2
  · refine List.ne_nil_of_mem (a := o) (List.mem_filter.mpr ⟨ho, ?_⟩)
    simp [hcal]

/-- Sample frame for the C4 witness: a body-mass metric with two
observations on day 5 and one on day 7. -/
def dfW4 : List Obs := [
  ⟨"HKQuantityTypeIdentifierBodyMass", 70, (5, 0)⟩,
  ⟨"HKQuantityTypeIdentifierBodyMass", 71, (5, 10)⟩,
  ⟨"HKQuantityTypeIdentifierBodyMass", 80, (7, 0)⟩]

/-- The day-5 row the aggregator emits for `dfW4`. -/
def rowW4 : DailyRow := ⟨5, RowStats.avg (141 / 2)⟩

/-- C4 (witness): the theorem applied to `dfW4` on the range `[1, 9]`. -/
theorem aggregator_dates_strictly_increasing_witness :
    (1 : ℕ) ≤ 9 ∧
    rowW4 ∈ create_visualization dfW4 "HKQuantityTypeIdentifierBodyMass" 1 9 ∧
    (((create_visualization dfW4 "HKQuantityTypeIdentifierBodyMass" 1 9).map
        DailyRow.date).Pairwise (· < ·) ∧
      1 ≤ rowW4.date ∧ rowW4.date ≤ 9 ∧
      (filterObs dfW4 "HKQuantityTypeIdentifierBodyMass" 1 9).filter
        (fun o => decide (calDate o = rowW4.date)) ≠ []) :=
  ⟨by decide, by with_unfolding_all decide,
   aggregator_dates_strictly_increasing dfW4 "HKQuantityTypeIdentifierBodyMass"
     1 9 rowW4 (by decide) (by with_unfolding_all decide)⟩

/-- C3: every non-empty same-day group of filtered observations yields a
daily row whose fields follow the substring dispatch on the metric
identifier: mean/min/max when it contains "HeartRate", the sum when it
contains "StepCount", "Distance" or "Energy", and the mean otherwise. -/
theorem aggregator_policy_rows (df : List Obs) (m : String) (d1 d2 d : ℕ)
    (h : (filterObs df m d1 d2).filter (fun o => decide (calDate o = d)) ≠ []) :
    (⟨d,
      if strHas m "HeartRate" then
        RowStats.hr
          (listMean (((filterObs df m d1 d2).filter
            (fun o => decide (calDate o = d))).map Obs.value))
          (listMinimum (((filterObs df m d1 d2).filter
            (fun o => decide (calDate o = d))).map Obs.value))
          (listMaximum (((filterObs df m d1 d2).filter
            (fun o => decide (calDate o = d))).map Obs.value))
      else if strHas m "StepCount" || strHas m "Distance" || strHas m "Energy" then
        RowStats.total ((((filterObs df m d1 d2).filter
          (fun o => decide (calDate o = d))).map Obs.value).sum)
      else
        RowStats.avg (listMean (((filterObs df m d1 d2).filter
          (fun o => decide (calDate o = d))).map Obs.value))⟩ : DailyRow)
      ∈ create_visualization df m d1 d2 := by
  obtain ⟨o, ho⟩ := List.exists_mem_of_ne_nil _ h
  obtain ⟨hof, hod⟩ := List.mem_filter.mp ho
  have hd : d ∈ sortedDates ((filterObs df m d1 d2).map calDate) := by
    rw [mem_sortedDates]
    refine List.mem_map.mpr ⟨o, hof, ?_⟩
    simpa using hod
  have hgrp : (d, ((filterObs df m d1 d2).filter
      (fun o => decide (calDate o = d))).map Obs.value)
      ∈ groupRows (filterObs df m d1 d2) := by
    rw [groupRows]
    exact List.mem_map_of_mem _ hd
  have hmem := List.mem_map_of_mem
    (fun p : ℕ × List ℚ => (⟨p.1, aggStats m p.2⟩ : DailyRow)) hgrp
  rw [create_visualization]
  simpa [aggStats] using hmem

/-- Sample frame for the C3 witness: the spec's heart-rate example, values
60, 70, 80 on day 3. -/
def dfW3 : List Obs := [
  ⟨"HKQuantityTypeIdentifierHeartRate", 60, (3, 0)⟩,
  ⟨"HKQuantityTypeIdentifierHeartRate", 70, (3, 1)⟩,
  ⟨"HKQuantityTypeIdentifierHeartRate", 80, (3, 2)⟩]

/-- C3 (witness): the day-3 heart-rate group of `dfW3` is non-empty and the
theorem places the row mean=70, min=60, max=80 in the output. -/
theorem aggregator_policy_rows_witness :
    (filterObs dfW3 "HKQuantityTypeIdentifierHeartRate" 1 9).filter
      (fun o => decide (calDate o = 3)) ≠ [] ∧
    (⟨3, RowStats.hr 70 60 80⟩ : DailyRow)
      ∈ create_visualization dfW3 "HKQuantityTypeIdentifierHeartRate" 1 9 :=
  ⟨by with_unfolding_all decide, by
    have h := aggregator_policy_rows dfW3 "HKQuantityTypeIdentifierHeartRate" 1 9 3
      (by with_unfolding_all decide)
    with_unfolding_all exact h⟩

/-- C9: the aggregator is pure — the observation frame after a call is the
frame passed in, re-running on it with the same parameters returns the
identical output, and it can be reused with different parameters with the
same result as on the original frame. -/
theorem aggregator_pure_rerun (df : List Obs) (m m2 : String) (d1 d2 e1 e2 : ℕ) :
    (create_visualization_run df m d1 d2).2 = df ∧
    (create_visualization_run ((create_visualization_run df m d1 d2).2) m d1 d2).1
      = (create_visualization_run df m d1 d2).1 ∧
    create_visualization ((create_visualization_run df m d1 d2).2) m2 e1 e2
      = create_visualization df m2 e1 e2 :=
  ⟨rfl, rfl, rfl⟩

/-- C10: the heart-rate test is evaluated first: a metric identifier
containing "HeartRate" gets the mean/min/max policy for every emitted row,
even when the identifier also contains "StepCount", "Distance" or
"Energy". -/
theorem heartRate_dispatch_precedence (df : List Obs) (m : String) (d1 d2 : ℕ)
    (row : DailyRow) (hhr : strHas m "HeartRate" = true)
    (hcum : strHas m "StepCount" = true ∨ strHas m "Distance" = true ∨
      strHas m "Energy" = true)
    (hrow : row ∈ create_visualization df m d1 d2) :
    ∃ a b c, row.stats = RowStats.hr a b c := by
  rw [create_visualization] at hrow
  obtain ⟨p, hp, rfl⟩ := List.mem_map.mp hrow
  exact ⟨listMean p.2, listMinimum p.2, listMaximum p.2, by simp [aggStats, hhr]⟩

/-- Sample frame for the C10 witness: a hypothetical identifier containing
both "HeartRate" and "Energy". -/
def dfW10 : List Obs := [⟨"HeartRateEnergy", 5, (3, 0)⟩]

/-- C10 (witness): dispatching "HeartRateEnergy" applies the heart-rate
policy although the identifier also contains "Energy". -/
theorem heartRate_dispatch_precedence_witness :
    strHas "HeartRateEnergy" "HeartRate" = true ∧
    strHas "HeartRateEnergy" "Energy" = true ∧
    (⟨3, RowStats.hr 5 5 5⟩ : DailyRow) ∈ create_visualization dfW10 "HeartRateEnergy" 1 9 ∧
    (∃ a b c, (⟨3, RowStats.hr 5 5 5⟩ : DailyRow).stats = RowStats.hr a b c) :=
  ⟨by decide, by decide, by with_unfolding_all decide,
   heartRate_dispatch_precedence dfW10 "HeartRateEnergy" 1 9 ⟨3, RowStats.hr 5 5 5⟩
     (by decide) (Or.inr (Or.inr (by decide))) (by with_unfolding_all decide)⟩

/-! ### Properties of the Record Extractor -/

lemma floatAttr_err (v : Option String) (er : PyErr)
    (h : floatAttr v = .error er) : er = .valueError ∨ er = .typeError := by
  cases v with
  | none =>
    simp only [floatAttr, Except.error.injEq] at h
    exact Or.inr h.symm
  | some s =>
    cases hp : pyFloatParse s with
    | none =>
      simp only [floatAttr, hp, Except.error.injEq] at h
      exact Or.inl h.symm
    | some x => simp [floatAttr, hp] at h

lemma strptimeAttr_err (v : Option String) (er : PyErr)
    (h : strptimeAttr v = .error er) : er = .valueError ∨ er = .typeError := by
  cases v with
  | none =>
    simp only [strptimeAttr, Except.error.injEq] at h
    exact Or.inr h.symm
  | some s =>
    cases hp : strptimeFixed s with
    | none =>
      simp only [strptimeAttr, hp, Except.error.injEq] at h
      exact Or.inl h.symm
    | some x => simp [strptimeAttr, hp] at h

lemma floatAttr_ok_inv (v : Option String) (x : PyFloat)
    (h : floatAttr v = .ok x) : ∃ s, v = some s ∧ pyFloatParse s = some x := by
  cases v with
  | none => simp [floatAttr] at h
  | some s =>
    refine ⟨s, rfl, ?_⟩
    cases hp : pyFloatParse s with
    | none => simp [floatAttr, hp] at h
    | some y =>
      simp only [floatAttr, hp, Except.ok.injEq] at h
      rw [h]

lemma strptimeAttr_ok_inv (v : Option String) (x : PyDateTime)
    (h : strptimeAttr v = .ok x) : ∃ s, v = some s ∧ strptimeFixed s = some x := by
  cases v with
  | none => simp [strptimeAttr] at h
  | some s =>
    refine ⟨s, rfl, ?_⟩
    cases hp : strptimeFixed s with
    | none => simp [strptimeAttr, hp] at h
    | some y =>
      simp only [strptimeAttr, hp, Except.ok.injEq] at h
      rw [h]

lemma categoryAttr_ok_inv (t c : String) (h : categoryAttr t = .ok c) :
    catalogCategoryOf t = some c := by
  unfold categoryAttr at h
  cases hf : HEALTHKIT_METRICS.find? (fun q => decide (t ∈ q.2)) with
  | none => rw [hf] at h; simp at h
  | some p =>
    rw [hf] at h
    simp only [Except.ok.injEq] at h
    simp [catalogCategoryOf, hf, h]

lemma categoryAttr_total (t : String) (ht : t ∈ all_metrics) :
    ∃ c, categoryAttr t = .ok c := by
  obtain ⟨l, hl, htl⟩ := List.mem_flatten.mp ht
  obtain ⟨p, hp, rfl⟩ := List.mem_map.mp hl
  have hs : (HEALTHKIT_METRICS.find? (fun q => decide (t ∈ q.2))).isSome := by
    rw [List.find?_isSome]
    exact ⟨p, hp, by simpa using htl⟩
  obtain ⟨q, hq⟩ := Option.isSome_iff_exists.mp hs
  exact ⟨q.1, by simp [categoryAttr, hq]⟩

lemma tryRecord_ok_inv (t : String) (e : Element) (o : RawObs)
    (h : tryRecord t e = .ok o) :
    o.mtype = t ∧ (∃ s, e.value = some s ∧ pyFloatParse s = some o.value) ∧
      (∃ s, e.startDate = some s ∧ strptimeFixed s = some o.date) ∧
      categoryAttr t = .ok o.category := by
  cases hf : floatAttr e.value with
  | error er => simp [tryRecord, Bind.bind, Except.bind, hf] at h
  | ok v =>
    cases hd : strptimeAttr e.startDate with
    | error er => simp [tryRecord, Bind.bind, Except.bind, hf, hd] at h
    | ok dt =>
      cases hc : categoryAttr t with
      | error er => simp [tryRecord, Bind.bind, Except.bind, hf, hd, hc] at h
      | ok c =>
        simp only [tryRecord, Bind.bind, Except.bind, hf, hd, hc, pure,
          Except.pure, Except.ok.injEq] at h
        subst h
        exact ⟨rfl, floatAttr_ok_inv _ _ hf, strptimeAttr_ok_inv _ _ hd,
          by simpa using hc⟩

lemma tryRecord_err_inv (t : String) (e : Element) (er : PyErr)
    (ht : t ∈ all_metrics) (h : tryRecord t e = .error er) :
    er = .valueError ∨ er = .typeError := by
  cases hf : floatAttr e.value with
  | error e1 =>
    have h1 : tryRecord t e = .error e1 := by
      simp [tryRecord, Bind.bind, Except.bind, hf]
    rw [h1] at h
    simp only [Except.error.injEq] at h
    rw [← h]
    exact floatAttr_err _ _ hf
  | ok v =>
    cases hd : strptimeAttr e.startDate with
    | error e2 =>
      have h1 : tryRecord t e = .error e2 := by
        simp [tryRecord, Bind.bind, Except.bind, hf, hd]
      rw [h1] at h
      simp only [Except.error.injEq] at h
      rw [← h]
      exact strptimeAttr_err _ _ hd
    | ok dt =>
      obtain ⟨c, hc⟩ := categoryAttr_total t ht
      have h1 : tryRecord t e = .ok ⟨t, v, e.unit, dt, c⟩ := by
        simp [tryRecord, Bind.bind, Except.bind, hf, hd, hc, pure, Except.pure]
      rw [h1] at h
      simp at h

lemma process_no_fatal (e : Element) : ∃ r, processElement e = .ok r := by
  unfold processElement
  cases he : e.type with
  | none => exact ⟨none, rfl⟩
  | some t =>
    dsimp only
    by_cases ht : t ∈ all_metrics
    · rw [if_pos ht]
      cases htr : tryRecord t e with
      | ok o => exact ⟨some o, rfl⟩
      | error er =>
        refine ⟨none, ?_⟩
        rcases tryRecord_err_inv t e er ht htr with rfl | rfl <;> rfl
    · rw [if_neg ht]
      exact ⟨none, rfl⟩

lemma processElement_ok_some_inv (e : Element) (o : RawObs)
    (h : processElement e = .ok (some o)) :
    e.type = some o.mtype ∧ o.mtype ∈ all_metrics ∧
      (∃ s, e.value = some s ∧ pyFloatParse s = some o.value) ∧
      (∃ s, e.startDate = some s ∧ strptimeFixed s = some o.date) ∧
      catalogCategoryOf o.mtype = some o.category := by
  unfold processElement at h
  cases he : e.type with
  | none => rw [he] at h; simp at h
  | some t =>
    rw [he] at h
    dsimp only at h
    by_cases ht : t ∈ all_metrics
    · rw [if_pos ht] at h
      cases htr : tryRecord t e with
      | ok o' =>
        rw [htr] at h
        simp only [Except.ok.injEq, Option.some.injEq] at h
        subst h
        obtain ⟨hmt, hval, hdate, hcat⟩ := tryRecord_ok_inv t e o' htr
        subst hmt
        exact ⟨rfl, ht, hval, hdate, categoryAttr_ok_inv _ _ hcat⟩
      | error er =>
        rw [htr] at h
        cases er <;> simp at h
    · rw [if_neg ht] at h
      simp at h

lemma extract_total (es : List Element) :
    ∃ l, extractRecords es = .ok l ∧ l.length ≤ es.length := by
  induction es with
  | nil => exact ⟨[], rfl, Nat.le_refl 0⟩
  | cons e es ih =>
    obtain ⟨l, hl, hlen⟩ := ih
    obtain ⟨r, hr⟩ := process_no_fatal e
    cases r with
    | some o =>
      refine ⟨o :: l, ?_, by simpa using Nat.succ_le_succ hlen⟩
      simp [extractRecords, Bind.bind, Except.bind, hr, hl, pure, Except.pure]
    | none =>
      refine ⟨l, ?_, Nat.le_succ_of_le hlen⟩
      simp [extractRecords, Bind.bind, Except.bind, hr, hl, pure, Except.pure]

lemma extract_mem (es : List Element) (l : List RawObs) (o : RawObs)
    (hl : extractRecords es = .ok l) (ho : o ∈ l) :
    ∃ e ∈ es, processElement e = .ok (some o) := by
  induction es generalizing l with
  | nil =>
    simp only [extractRecords, Except.ok.injEq] at hl
    subst hl
    simp at ho
  | cons e es ih =>
    obtain ⟨r, hr⟩ := process_no_fatal e
    obtain ⟨l', hl', _⟩ := extract_total es
    cases r with
    | some o' =>
      have hrec : extractRecords (e :: es) = .ok (o' :: l') := by
        simp [extractRecords, Bind.bind, Except.bind, hr, hl', pure, Except.pure]
      rw [hrec] at hl
      simp only [Except.ok.injEq] at hl
      subst hl
      rcases List.mem_cons.mp ho with rfl | ho'
      · exact ⟨e, List.mem_cons_self e es, hr⟩
      · obtain ⟨e', he', hpe⟩ := ih l' hl' ho'
        exact ⟨e', List.mem_cons_of_mem e he', hpe⟩
    | none =>
      have hrec : extractRecords (e :: es) = .ok l' := by
        simp [extractRecords, Bind.bind, Except.bind, hr, hl', pure, Except.pure]
      rw [hrec] at hl
      simp only [Except.ok.injEq] at hl
      subst hl
      obtain ⟨e', he', hpe⟩ := ih l' hl' ho
      exact ⟨e', List.mem_cons_of_mem e he', hpe⟩

lemma parse_ok_inv (es : List Element) (l : List RawObs)
    (h : parse_healthkit_export (.ok es) = some l) : extractRecords es = .ok l := by
  unfold parse_healthkit_export at h
  dsimp only at h
  cases hx : extractRecords es with
  | ok l' =>
    rw [hx] at h
    simp only [Option.some.injEq] at h
    rw [h]
  | error er => rw [hx] at h; simp at h

/-- C5: every observation extracted from the export carries the category of
the catalog entry containing its metric identifier; the number of extracted
observations never exceeds the number of elements; and an element whose type
attribute is absent or not in the flattened catalog produces no
observation. -/
theorem extraction_category_and_count (es : List Element) (l : List RawObs)
    (h : parse_healthkit_export (.ok es) = some l) :
    (∀ o ∈ l, catalogCategoryOf o.mtype = some o.category) ∧
      l.length ≤ es.length ∧
      (∀ e ∈ es, (∀ t, e.type = some t → t ∉ all_metrics) →
        processElement e = .ok none) := by
  have hx := parse_ok_inv es l h
  refine ⟨?_, ?_, ?_⟩
  · intro o ho
    obtain ⟨e, _, hpe⟩ := extract_mem es l o hx ho
    exact (processElement_ok_some_inv e o hpe).2.2.2.2
  · obtain ⟨l', hl', hlen⟩ := extract_total es
    have hll : l' = l := by
      have h2 := hl'.symm.trans hx
      simpa using h2
    rw [← hll]
    exact hlen
  · intro e _ hu
    unfold processElement
    cases het : e.type with
    | none => rfl
    | some t =>
      dsimp only
      rw [if_neg (hu t het)]

/-- Recognized, well-formed element for the C5 witness. -/
def eW5a : Element :=
  ⟨some "HKQuantityTypeIdentifierBodyMass", some "70.5", some "kg",
   some "2024-02-01 08:00:00 +0100"⟩

/-- Unrecognized element for the C5 witness. -/
def eW5b : Element :=
  ⟨some "HKWorkoutTypeIdentifier", some "1", some "x",
   some "2024-02-01 08:00:00 +0100"⟩

/-- The single observation extracted from `[eW5a, eW5b]`. -/
def oW5 : RawObs :=
  ⟨"HKQuantityTypeIdentifierBodyMass", PyFloat.finite (141 / 2), some "kg",
   ⟨2024, 2, 1, 8, 0, 0, 60⟩, "Body Measurements"⟩

set_option maxRecDepth 20000 in
/-- C5 (witness): the theorem applied to a two-element export holding one
recognized and one unrecognized element. -/
theorem extraction_category_and_count_witness :
    parse_healthkit_export (.ok [eW5a, eW5b]) = some [oW5] ∧
    ((∀ o ∈ [oW5], catalogCategoryOf o.mtype = some o.category) ∧
      ([oW5] : List RawObs).length ≤ ([eW5a, eW5b] : List Element).length ∧
      (∀ e ∈ [eW5a, eW5b], (∀ t, e.type = some t → t ∉ all_metrics) →
        processElement e = .ok none)) :=
  ⟨by with_unfolding_all decide,
   extraction_category_and_count [eW5a, eW5b] [oW5] (by with_unfolding_all decide)⟩

set_option maxRecDepth 20000 in
/-- C6 (counterexample): an element with the recognized step-count type and
`value="inf"` is not excluded: `float("inf")` succeeds in Python, so the
returned collection contains an observation whose value is not finite,
contradicting the claim that NaN/Inf values are excluded. -/
theorem extraction_nonfinite_value_counterexample :
    parse_healthkit_export (.ok [⟨some "HKQuantityTypeIdentifierStepCount",
        some "inf", some "count", some "2024-02-01 10:00:00 +0000"⟩]) =
      some [⟨"HKQuantityTypeIdentifierStepCount", PyFloat.inf, some "count",
        ⟨2024, 2, 1, 10, 0, 0, 0⟩, "Activity"⟩] ∧
    PyFloat.isFinite PyFloat.inf = false :=
  ⟨by with_unfolding_all decide, rfl⟩

/-- C6 (amended): every observation's value is the float successfully parsed
from the element's value attribute — elements whose value fails to parse are
excluded, but the non-finite results of parsing "nan"/"inf"/"infinity" are
retained, not filtered out. -/
theorem extraction_value_from_float_parse (e : Element) (o : RawObs)
    (h : processElement e = .ok (some o)) :
    ∃ s, e.value = some s ∧ pyFloatParse s = some o.value :=
  (processElement_ok_some_inv e o h).2.2.1

/-- Well-formed oxygen-saturation element for the C6 witness. -/
def eW6 : Element :=
  ⟨some "HKQuantityTypeIdentifierOxygenSaturation", some "0.97", some "%",
   some "2024-03-05 07:30:00 -0500"⟩

/-- The observation extracted from `eW6`. -/
def oW6 : RawObs :=
  ⟨"HKQuantityTypeIdentifierOxygenSaturation", PyFloat.finite (97 / 100),
   some "%", ⟨2024, 3, 5, 7, 30, 0, -300⟩, "Vital Signs"⟩

set_option maxRecDepth 20000 in
/-- C6 (witness): the amended theorem applied to `eW6`. -/
theorem extraction_value_from_float_parse_witness :
    processElement eW6 = .ok (some oW6) ∧
    (∃ s, eW6.value = some s ∧ pyFloatParse s = some oW6.value) :=
  ⟨by with_unfolding_all decide,
   extraction_value_from_float_parse eW6 oW6 (by with_unfolding_all decide)⟩

/-- C7: an element with a recognized type whose value attribute fails float
parsing (missing or non-numeric) or whose start-timestamp attribute fails
the fixed strptime format is skipped silently: the record loop emits nothing
for it and does not raise, and extraction of any surrounding document
produces exactly the collection it would produce without that element. -/
theorem extractor_skips_malformed_element (e : Element) (t : String)
    (pre post : List Element) (ht : e.type = some t) (hm : t ∈ all_metrics)
    (hbad : (∃ er, floatAttr e.value = .error er) ∨
      (∃ er, strptimeAttr e.startDate = .error er)) :
    processElement e = .ok none ∧
    extractRecords (pre ++ e :: post) = extractRecords (pre ++ post) := by
  have hskip : processElement e = .ok none := by
    unfold processElement
    rw [ht]
    dsimp only
    rw [if_pos hm]
    rcases hbad with ⟨er, hf⟩ | ⟨er, hd⟩
    · have htr : tryRecord t e = .error er := by
        simp [tryRecord, Bind.bind, Except.bind, hf]
      rw [htr]
      rcases floatAttr_err _ _ hf with rfl | rfl <;> rfl
    · cases hfv : floatAttr e.value with
      | error e1 =>
        have htr : tryRecord t e = .error e1 := by
          simp [tryRecord, Bind.bind, Except.bind, hfv]
        rw [htr]
        rcases floatAttr_err _ _ hfv with rfl | rfl <;> rfl
      | ok v =>
        have htr : tryRecord t e = .error er := by
          simp [tryRecord, Bind.bind, Except.bind, hfv, hd]
        rw [htr]
        rcases strptimeAttr_err _ _ hd with rfl | rfl <;> rfl
  refine ⟨hskip, ?_⟩
  induction pre with
  | nil =>
    obtain ⟨l', hl', _⟩ := extract_total post
    simp [extractRecords, Bind.bind, Except.bind, hskip, hl', pure, Except.pure]
  | cons p pre ih =>
    obtain ⟨r, hr⟩ := process_no_fatal p
    have ha : (p :: pre) ++ e :: post = p :: (pre ++ e :: post) := rfl
    have hb : (p :: pre) ++ post = p :: (pre ++ post) := rfl
    rw [ha, hb]
    simp only [extractRecords, Bind.bind, Except.bind, hr, ih]

/-- Malformed-value element for the C7 witness (`value="abc"`). -/
def eBadW : Element :=
  ⟨some "HKQuantityTypeIdentifierStepCount", some "abc", some "count",
   some "2024-02-01 10:00:00 +0000"⟩

/-- Well-formed element surrounding the malformed one in the C7 witness. -/
def eGoodW : Element :=
  ⟨some "HKQuantityTypeIdentifierStepCount", some "12", some "count",
   some "2024-02-02 10:00:00 +0000"⟩

set_option maxRecDepth 20000 in
/-- C7 (witness): the malformed element contributes no observation and does
not disturb extraction of its neighbours. -/
theorem extractor_skips_malformed_element_witness :
    eBadW.type = some "HKQuantityTypeIdentifierStepCount" ∧
    "HKQuantityTypeIdentifierStepCount" ∈ all_metrics ∧
    floatAttr eBadW.value = .error PyErr.valueError ∧
    (processElement eBadW = .ok none ∧
      extractRecords ([eGoodW] ++ eBadW :: []) = extractRecords ([eGoodW] ++ [])) :=
  ⟨rfl, by decide, by decide,
   extractor_skips_malformed_element eBadW "HKQuantityTypeIdentifierStepCount"
     [eGoodW] [] rfl (by decide) (Or.inl ⟨PyErr.valueError, by decide⟩)⟩

/-- C8: extraction fails as a whole exactly at the document level: an
unreadable or tree-unparseable document yields `none` (an error message and
no observation collection), while a readable element list always yields a
complete collection — never a partial collection mixed with an error. -/
theorem extraction_fatal_is_total_failure (msg : String) (es : List Element) :
    parse_healthkit_export (.error msg) = none ∧
    ∃ l, parse_healthkit_export (.ok es) = some l := by
  refine ⟨rfl, ?_⟩
  obtain ⟨l, hl, _⟩ := extract_total es
  refine ⟨l, ?_⟩
  unfold parse_healthkit_export
  dsimp only
  rw [hl]

/-! ### Properties of the summary-statistics block -/

/-- C2 (counterexample): on an empty daily collection the summary block does
not signal any `EmptyInput` condition — it computes all four scalars over
zero rows: pandas yields NaN for the empty-series mean, maximum and minimum,
and the day count is 0. -/
theorem summary_empty_counterexample :
    summaryStats [] = ⟨PyFloat.nan, PyFloat.nan, PyFloat.nan, 0⟩ := rfl

/-- C2 (amended): for every daily collection with zero rows, the summary
block computes the four scalars over the zero items — NaN mean, NaN maximum,
NaN minimum and a day count of 0 — instead of signalling EmptyInput. -/
theorem summary_empty_computes_nan (vals : List ℚ) (h : vals.length = 0) :
    summaryStats vals = ⟨PyFloat.nan, PyFloat.nan, PyFloat.nan, 0⟩ := by
  cases vals with
  | nil => rfl
  | cons a l => simp at h

/-- C2 (witness): the amended theorem applied to the empty collection. -/
theorem summary_empty_computes_nan_witness :
    ([] : List ℚ).length = 0 ∧
    summaryStats ([] : List ℚ) = ⟨PyFloat.nan, PyFloat.nan, PyFloat.nan, 0⟩ :=
  ⟨rfl, summary_empty_computes_nan [] rfl⟩
